import Mathlib

/-!
# Verification of the HTTP model-serving wrapper

Shallow embedding of the repository's three source files:

* `app/model_loader.py` — `load_model` fetches a pretrained model and
  tokenizer by name, puts the model in evaluation mode and returns the
  pair `(model, tokenizer)`.
* `app/main.py` — unpacks the pair into `model, tokenizer` module
  globals and serves `POST /generate`.
* `app/handler.py` — binds the *whole* pair to the single name `model`
  and serves `POST /run`.

The external HuggingFace / torch library (tokenization, generation,
decoding, tensor indexing) is out of scope for the repository, so it is
modelled abstractly: a `Tokenizer` and a `Model` are records of fallible
operations (`Except Err`), and a `Hub` stands for the pretrained-model
repository queried by name.  Python floats are modelled as rationals
(they are only ever forwarded, never computed with), Python ints as
`Int`, token-id tensors as `List Nat` and batches as `List (List Nat)`.
-/

/-- Errors propagating out of library calls or the handler code
(Python exceptions), carried as their message. -/
abbrev Err := String

/-- Abstract tokenizer, the external collaborator used by `main.py`.
`encode` embeds the call `tokenizer(prompt, return_tensors="pt")`
(producing the input-id tensor) and `decode` embeds
`tokenizer.decode(ids, skip_special_tokens)`.  Both may raise. -/
structure Tokenizer where
  encode : String → Except Err (List Nat)
  decode : List Nat → Bool → Except Err String

/-- Abstract pretrained causal LM.  `training` is the torch train/eval
flag toggled by `model.eval()`.  `generate` embeds
`model.generate(**inputs, max_new_tokens, temperature)`: it receives
the encoded input ids and the two sampling parameters and produces a
batch of output token-id sequences (or raises). -/
structure Model where
  training : Bool
  generate : List Nat → Int → ℚ → Except Err (List (List Nat))

/-- `model.eval()` from `model_loader.py`: puts the model in evaluation
mode (torch sets `training := False` in place; embedded as a functional
update). -/
def Model.eval (m : Model) : Model :=
  { m with training := false }

/-- The pretrained-model repository behind
`AutoTokenizer.from_pretrained` / `AutoModelForCausalLM.from_pretrained`,
abstracted as lookups by model name.  (`torch_dtype="auto"` and
`device_map="auto"` only affect placement of the returned model and are
absorbed into the lookup.) -/
structure Hub where
  fromPretrainedTokenizer : String → Tokenizer
  fromPretrainedModel : String → Model

/-- `MODEL_NAME` from `model_loader.py`, a compile-time constant. -/
def MODEL_NAME : String := "mistralai/Mistral-7B-Instruct-v0.2"

/-- `load_model` from `model_loader.py`: fetch tokenizer and model for
`MODEL_NAME`, call `model.eval()`, and `return model, tokenizer`
(a pair with the model first). -/
def load_model (hub : Hub) : Model × Tokenizer :=
  let tokenizer := hub.fromPretrainedTokenizer MODEL_NAME
  let model := hub.fromPretrainedModel MODEL_NAME
  let model := model.eval
  (model, tokenizer)

/-! ## Request bodies and pydantic validation

A JSON request body, as far as the two pydantic schemas can see it:
each known field either present or absent.  `Input` (handler.py)
requires `prompt`; `GenRequest` (main.py) requires `prompt` and gives
`max_tokens`/`temperature` defaults 128 and 0.7.  A missing required
field makes validation fail, which FastAPI turns into an HTTP 422
response without entering the endpoint function. -/

/-- A JSON body for either endpoint, prior to schema validation. -/
structure RawBody where
  prompt : Option String
  max_tokens : Option Int
  temperature : Option ℚ
deriving DecidableEq

/-- `Input` from `handler.py`: `prompt: str`, required. -/
structure Input where
  prompt : String
deriving DecidableEq

/-- `GenRequest` from `main.py`: required `prompt`, optional
`max_tokens: int = 128` and `temperature: float = 0.7`. -/
structure GenRequest where
  prompt : String
  max_tokens : Int
  temperature : ℚ
deriving DecidableEq

/-- Pydantic validation of a body against `Input`: fails exactly when
`prompt` is missing (extra fields are ignored). -/
def parseInput (b : RawBody) : Option Input :=
  b.prompt.map fun p => { prompt := p }

/-- Pydantic validation of a body against `GenRequest`: fails exactly
when `prompt` is missing; absent optional fields take their declared
defaults 128 and 7/10. -/
def parseGenRequest (b : RawBody) : Option GenRequest :=
  b.prompt.map fun p =>
    { prompt := p
      max_tokens := b.max_tokens.getD 128
      temperature := b.temperature.getD (7/10) }

/-! ## The `/generate` endpoint (`main.py`) -/

/-- Response body of `POST /generate`: `{"completion": text}`. -/
structure GenResponse where
  completion : String
deriving DecidableEq

/-- Response body of `POST /run`: `{"output": response}`. -/
structure RunResponse where
  output : String
deriving DecidableEq

/-- The torch tensor indexing `outputs[0]` in `main.py`: the first
sequence of the generated batch; raises `IndexError` on an empty
batch. -/
def tensorIndex0 (outputs : List (List Nat)) : Except Err (List Nat) :=
  match outputs with
  | [] => Except.error "IndexError: index 0 is out of bounds"
  | s :: _ => Except.ok s

/-- The body of the `generate` endpoint function in `main.py`:
encode the prompt, call `model.generate` with `max_new_tokens :=
req.max_tokens` and `temperature := req.temperature`, take `outputs[0]`,
decode it with `skip_special_tokens=True`, and return
`{"completion": text}`.  Any failure in a delegated call propagates
unchanged (there is no try/except in the source). -/
def generate (M : Model) (T : Tokenizer) (req : GenRequest) :
    Except Err GenResponse :=
  (T.encode req.prompt).bind fun inputs =>
    (M.generate inputs req.max_tokens req.temperature).bind fun outputs =>
      (tensorIndex0 outputs).bind fun first =>
        (T.decode first true).map fun text => { completion := text }

/-! ## The `/run` endpoint (`handler.py`)

`handler.py` executes `model = load_model()` at import time.  Since
`load_model` returns the tuple `(model, tokenizer)`, the module global
`model` is bound to the whole 2-tuple.  The endpoint body then evaluates
`model.generate(input.prompt)`: an attribute access on a Python tuple.
Python tuples define no `generate` attribute, so this raises
`AttributeError` before any library call takes place. -/

/-- Python attribute lookup of `generate` on a tuple value: tuples have
no such attribute, so the lookup always fails (`AttributeError`). -/
def tupleGenerateAttr (_p : Model × Tokenizer) :
    Option (String → Except Err String) :=
  none

/-- Module-level state of `handler.py`: the single global `model`,
bound to the full result of `load_model()`. -/
structure HandlerModule where
  model : Model × Tokenizer

/-- Import-time initialization of `handler.py`:
`model = load_model()`. -/
def initHandler (hub : Hub) : HandlerModule :=
  { model := load_model hub }

/-- The body of the `run` endpoint function in `handler.py`:
`response = model.generate(input.prompt)` then
`return {"output": response}`.  The attribute lookup on the tuple-bound
global raises, so the success branch is unreachable. -/
def run (st : HandlerModule) (input : Input) : Except Err RunResponse :=
  match tupleGenerateAttr st.model with
  | none => Except.error "AttributeError: tuple object has no attribute generate"
  | some g => (g input.prompt).map fun r => { output := r }

/-! ## Module state of `main.py` and the framework route layer -/

/-- Module-level state of `main.py`:
`model, tokenizer = load_model()` (tuple unpacking). -/
structure MainModule where
  model : Model
  tokenizer : Tokenizer

/-- Import-time initialization of `main.py`. -/
def initMain (hub : Hub) : MainModule :=
  let mt := load_model hub
  { model := mt.1, tokenizer := mt.2 }

/-- An HTTP outcome as produced by the FastAPI framework: 200 with a
JSON body, 422 on schema validation failure, or 500 when the endpoint
function raises. -/
inductive Http (α : Type) where
  | ok (body : α)
  | unprocessable
  | serverError (e : Err)
deriving DecidableEq

/-- FastAPI dispatch of `POST /generate`: validate the body against
`GenRequest` (422 on failure, endpoint never entered), otherwise run the
endpoint body and turn an uncaught exception into a 500. -/
def generateRoute (st : MainModule) (b : RawBody) : Http GenResponse :=
  match parseGenRequest b with
  | none => Http.unprocessable
  | some req =>
    match generate st.model st.tokenizer req with
    | Except.ok r => Http.ok r
    | Except.error e => Http.serverError e

/-- FastAPI dispatch of `POST /run`: validate against `Input`, then run
the endpoint body. -/
def runRoute (st : HandlerModule) (b : RawBody) : Http RunResponse :=
  match parseInput b with
  | none => Http.unprocessable
  | some i =>
    match run st i with
    | Except.ok r => Http.ok r
    | Except.error e => Http.serverError e

/-- One request step on `main.py`: the handlers only read the module
globals (the source contains no assignment to them), so the module
state is returned unchanged alongside the HTTP result. -/
def handleGenerate (st : MainModule) (b : RawBody) :
    MainModule × Http GenResponse :=
  (st, generateRoute st b)

/-- One request step on `handler.py`. -/
def handleRun (st : HandlerModule) (b : RawBody) :
    HandlerModule × Http RunResponse :=
  (st, runRoute st b)

/-! ## Process lifecycle traces

For the singleton-lifecycle claim the life of a serving process is
modelled as a trace of events: one `load` event for the import-time
`load_model()` call, then one `request` event per served request, each
computed from the module state threaded through the steps. -/

/-- An observable event of a serving process. -/
inductive Ev (α : Type) where
  | load
  | request (b : RawBody) (r : α)
deriving DecidableEq

/-- Serve a list of requests on `main.py`, threading the module state
and recording one event per request. -/
def serveGen (st : MainModule) : List RawBody → List (Ev (Http GenResponse))
  | [] => []
  | b :: rest =>
    let step := handleGenerate st b
    Ev.request b step.2 :: serveGen step.1 rest

/-- Serve a list of requests on `handler.py`. -/
def serveRun (st : HandlerModule) : List RawBody → List (Ev (Http RunResponse))
  | [] => []
  | b :: rest =>
    let step := handleRun st b
    Ev.request b step.2 :: serveRun step.1 rest

/-- Full trace of a `main.py` process: module import runs
`load_model()` once, then requests are served. -/
def mainTrace (hub : Hub) (bodies : List RawBody) :
    List (Ev (Http GenResponse)) :=
  Ev.load :: serveGen (initMain hub) bodies

/-- Full trace of a `handler.py` process. -/
def runTrace (hub : Hub) (bodies : List RawBody) :
    List (Ev (Http RunResponse)) :=
  Ev.load :: serveRun (initHandler hub) bodies

/-! ## Concrete stub library, for witnesses -/

/-- A stub tokenizer: token ids are character codes. -/
def stubTokenizer : Tokenizer where
  encode s := Except.ok (s.data.map Char.toNat)
  decode ids _skip := Except.ok (String.mk (ids.map Char.ofNat))

/-- A stub model: echoes its input ids followed by `max_new_tokens`
copies of token 65.  Never raises. -/
def stubModel : Model where
  training := true
  generate ids maxNew _temp := Except.ok [ids ++ List.replicate maxNew.toNat 65]

/-- A stub hub serving the stub tokenizer and stub model for any
name. -/
def stubHub : Hub where
  fromPretrainedTokenizer _ := stubTokenizer
  fromPretrainedModel _ := stubModel

/-- Totality of the stub library: no stub operation ever raises. -/
def stubLibraryTotal : Prop :=
  (∀ s, ∃ v, stubTokenizer.encode s = Except.ok v) ∧
  (∀ ids sk, ∃ v, stubTokenizer.decode ids sk = Except.ok v) ∧
  (∀ ids mt t, ∃ v, stubModel.generate ids mt t = Except.ok v)

/-! ## Helper lemmas -/

@[simp]
theorem exceptBind_ok {α β : Type} (a : α) (f : α → Except Err β) :
    (Except.ok a : Except Err α).bind f = f a := rfl

@[simp]
theorem exceptBind_error {α β : Type} (e : Err) (f : α → Except Err β) :
    (Except.error e : Except Err α).bind f = Except.error e := rfl

@[simp]
theorem exceptMap_ok {α β : Type} (a : α) (f : α → β) :
    (Except.ok a : Except Err α).map f = Except.ok (f a) := rfl

@[simp]
theorem exceptMap_error {α β : Type} (e : Err) (f : α → β) :
    (Except.error e : Except Err α).map f = Except.error e := rfl

/-- `serveGen` reads but never rebinds the module state, so every
request is answered from the same state. -/
theorem serveGen_eq_map (st : MainModule) (bodies : List RawBody) :
    serveGen st bodies = bodies.map fun b => Ev.request b (generateRoute st b) := by
  induction bodies with
  | nil => rfl
  | cons b rest ih => simp [serveGen, handleGenerate, ih]

/-- `serveRun` reads but never rebinds the module state. -/
theorem serveRun_eq_map (st : HandlerModule) (bodies : List RawBody) :
    serveRun st bodies = bodies.map fun b => Ev.request b (runRoute st b) := by
  induction bodies with
  | nil => rfl
  | cons b rest ih => simp [serveRun, handleRun, ih]

/-! ## Claims -/

/-- C1: the claim says `POST /run {prompt: P}` returns HTTP 200 with a
JSON body `{output: string}`.  The code cannot do this for any prompt:
`handler.py` binds `model = load_model()` — the whole
`(model, tokenizer)` tuple — so `model.generate(input.prompt)` raises
`AttributeError` on every request and `/run` answers with a server
error.  This theorem evaluates the embedded code at the failing input
`{"prompt": "hello"}` on the stub hub. -/
theorem run_always_server_error :
    runRoute (initHandler stubHub)
      { prompt := some "hello", max_tokens := none, temperature := none } =
      Http.serverError "AttributeError: tuple object has no attribute generate" := rfl

/-- C2: whenever the delegated library calls succeed (encode, generate,
tensor indexing via a nonempty batch, decode), `POST /generate` returns
HTTP 200 with body `{completion: text}` where `text` is the decode,
excluding special tokens, of the produced token-id sequence. -/
theorem generate_returns_completion (st : MainModule) (b : RawBody) (p : String)
    (ids first : List Nat) (outs : List (List Nat)) (text : String)
    (hp : b.prompt = some p)
    (henc : st.tokenizer.encode p = Except.ok ids)
    (hgen : st.model.generate ids (b.max_tokens.getD 128) (b.temperature.getD (7/10)) =
      Except.ok outs)
    (hfst : outs.head? = some first)
    (hdec : st.tokenizer.decode first true = Except.ok text) :
    generateRoute st b = Http.ok { completion := text } := by
  cases outs with
  | nil => simp at hfst
  | cons a tail =>
    obtain rfl : a = first := by simpa using hfst
    simp [generateRoute, parseGenRequest, hp, generate, henc, hgen, tensorIndex0, hdec]

/-- C2 witness: on the stub hub, `{"prompt": "hi", "max_tokens": 2,
"temperature": 1/2}` yields 200 with completion `"hiAA"`. -/
theorem generate_returns_completion_witness :
    generateRoute (initMain stubHub)
      { prompt := some "hi", max_tokens := some 2, temperature := some (1/2) } =
      Http.ok { completion := "hiAA" } :=
  generate_returns_completion (initMain stubHub)
    { prompt := some "hi", max_tokens := some 2, temperature := some (1/2) }
    "hi" [104, 105] [104, 105, 65, 65] [[104, 105, 65, 65]] "hiAA"
    rfl rfl rfl rfl rfl

/-- C3: validating a body whose `prompt` is present yields a
`GenRequest` whose `max_tokens`/`temperature` are the supplied values
when present and the declared defaults 128 and 0.7 when omitted
(`Option.getD`), and the endpoint body invokes the model's generation
routine with exactly those two values. -/
theorem generate_defaults_forwarded (M : Model) (T : Tokenizer) (b : RawBody)
    (p : String) (hp : b.prompt = some p) :
    ∃ req, parseGenRequest b = some req ∧ req.prompt = p ∧
      req.max_tokens = b.max_tokens.getD 128 ∧
      req.temperature = b.temperature.getD (7/10) ∧
      generate M T req =
        (T.encode p).bind fun ids =>
          (M.generate ids (b.max_tokens.getD 128) (b.temperature.getD (7/10))).bind
            fun outs =>
              (tensorIndex0 outs).bind fun first =>
                (T.decode first true).map fun text =>
                  ({ completion := text } : GenResponse) := by
  refine ⟨{ prompt := p, max_tokens := b.max_tokens.getD 128,
            temperature := b.temperature.getD (7/10) }, ?_, rfl, rfl, rfl, rfl⟩
  simp [parseGenRequest, hp]

/-- C3 witness: instantiated at the stub library and a body omitting
both optional fields, so generation is invoked at 128 and 7/10. -/
theorem generate_defaults_forwarded_witness :
    ∃ req, parseGenRequest { prompt := some "x", max_tokens := none, temperature := none } =
        some req ∧
      req.prompt = "x" ∧
      req.max_tokens = (none : Option Int).getD 128 ∧
      req.temperature = (none : Option ℚ).getD (7/10) ∧
      generate stubModel stubTokenizer req =
        (stubTokenizer.encode "x").bind fun ids =>
          (stubModel.generate ids ((none : Option Int).getD 128)
              ((none : Option ℚ).getD (7/10))).bind fun outs =>
            (tensorIndex0 outs).bind fun first =>
              (stubTokenizer.decode first true).map fun text =>
                ({ completion := text } : GenResponse) :=
  generate_defaults_forwarded stubModel stubTokenizer
    { prompt := some "x", max_tokens := none, temperature := none } "x" rfl

/-- C4: a body missing the required `prompt` field fails pydantic
validation on both endpoints, so both routes answer 422 for every
module state — the endpoint bodies (and hence the generation call) are
never entered. -/
theorem missing_prompt_validation_error (stM : MainModule) (stH : HandlerModule)
    (b : RawBody) (hb : b.prompt = none) :
    generateRoute stM b = Http.unprocessable ∧ runRoute stH b = Http.unprocessable := by
  constructor <;> simp [generateRoute, runRoute, parseGenRequest, parseInput, hb]

/-- C4 witness: a concrete promptless body on the stub process. -/
theorem missing_prompt_validation_error_witness :
    generateRoute (initMain stubHub)
        { prompt := none, max_tokens := some 5, temperature := none } =
      Http.unprocessable ∧
    runRoute (initHandler stubHub)
        { prompt := none, max_tokens := some 5, temperature := none } =
      Http.unprocessable :=
  missing_prompt_validation_error (initMain stubHub) (initHandler stubHub)
    { prompt := none, max_tokens := some 5, temperature := none } rfl

/-- C5: `load_model` returns the pair of the model fetched for
`MODEL_NAME` — placed into evaluation mode before the return — and the
tokenizer fetched for `MODEL_NAME`; in particular the returned model is
no longer in training mode. -/
theorem load_model_ready_pair (hub : Hub) :
    load_model hub =
      ((hub.fromPretrainedModel MODEL_NAME).eval,
        hub.fromPretrainedTokenizer MODEL_NAME) ∧
    (load_model hub).1.training = false :=
  ⟨rfl, rfl⟩

/-- C6 counterexample: the claim says each endpoint handler raises if
and only if one of the delegated library calls raises.  On `/run` this
is false: with the stub library, none of whose operations ever raises,
the handler still raises — `handler.py` binds the whole
`(model, tokenizer)` tuple to `model`, and the tuple attribute lookup
`model.generate` fails before any library call. -/
theorem run_raises_although_library_total :
    stubLibraryTotal ∧
    run (initHandler stubHub) { prompt := "hi" } =
      Except.error "AttributeError: tuple object has no attribute generate" :=
  ⟨⟨fun _ => ⟨_, rfl⟩, fun _ _ => ⟨_, rfl⟩, fun _ _ _ => ⟨_, rfl⟩⟩, rfl⟩

/-- C6 amended: on `/generate` the handler body performs no local
recovery: it returns an error exactly when one of the delegated calls
(encode, generate, tensor indexing `outputs[0]`, decode) fails first,
and it returns that call's error unchanged.  On `/run` the handler
raises the tuple `AttributeError` on every request, before any library
call. -/
theorem handler_error_propagation :
    (∀ (M : Model) (T : Tokenizer) (req : GenRequest) (e : Err),
      generate M T req = Except.error e ↔
        T.encode req.prompt = Except.error e ∨
        ∃ ids, T.encode req.prompt = Except.ok ids ∧
          (M.generate ids req.max_tokens req.temperature = Except.error e ∨
            ∃ outs, M.generate ids req.max_tokens req.temperature = Except.ok outs ∧
              (tensorIndex0 outs = Except.error e ∨
                ∃ first, tensorIndex0 outs = Except.ok first ∧
                  T.decode first true = Except.error e))) ∧
    (∀ (st : HandlerModule) (i : Input),
      run st i =
        Except.error "AttributeError: tuple object has no attribute generate") := by
  constructor
  · intro M T req e
    simp only [generate]
    cases henc : T.encode req.prompt with
    | error e1 => simp [henc]
    | ok ids =>
      simp only [henc, exceptBind_ok]
      cases hgen : M.generate ids req.max_tokens req.temperature with
      | error e2 => simp [hgen]
      | ok outs =>
        simp only [hgen, exceptBind_ok]
        cases hfirst : tensorIndex0 outs with
        | error e3 => simp [hgen, hfirst]
        | ok first =>
          simp only [hfirst, exceptBind_ok]
          cases hdec : T.decode first true with
          | error e4 => simp [hgen, hfirst, hdec]
          | ok text => simp [hgen, hfirst, hdec]
  · intro st i
    rfl

/-- C7: lifecycle of each serving process: `load_model` runs exactly
once, as the first event (module import), before any request; every
request is then answered from the state built by that single load, and
the state threaded through the requests is never rebound. -/
theorem load_model_runs_once (hub : Hub) (bodies : List RawBody) :
    mainTrace hub bodies =
      Ev.load :: (bodies.map fun b => Ev.request b (generateRoute (initMain hub) b)) ∧
    (mainTrace hub bodies).count Ev.load = 1 ∧
    runTrace hub bodies =
      Ev.load :: (bodies.map fun b => Ev.request b (runRoute (initHandler hub) b)) ∧
    (runTrace hub bodies).count Ev.load = 1 := by
  have hm : mainTrace hub bodies =
      Ev.load :: (bodies.map fun b => Ev.request b (generateRoute (initMain hub) b)) := by
    simp [mainTrace, serveGen_eq_map]
  have hr : runTrace hub bodies =
      Ev.load :: (bodies.map fun b => Ev.request b (runRoute (initHandler hub) b)) := by
    simp [runTrace, serveRun_eq_map]
  refine ⟨hm, ?_, hr, ?_⟩
  · rw [hm, List.count_cons_self]
    have : (bodies.map fun b =>
        (Ev.request b (generateRoute (initMain hub) b) :
          Ev (Http GenResponse))).count Ev.load = 0 := by
      rw [List.count_eq_zero]
      intro hmem
      obtain ⟨b, _, hb⟩ := List.mem_map.mp hmem
      exact Ev.noConfusion hb
    omega
  · rw [hr, List.count_cons_self]
    have : (bodies.map fun b =>
        (Ev.request b (runRoute (initHandler hub) b) :
          Ev (Http RunResponse))).count Ev.load = 0 := by
      rw [List.count_eq_zero]
      intro hmem
      obtain ⟨b, _, hb⟩ := List.mem_map.mp hmem
      exact Ev.noConfusion hb
    omega

/-- C8: serving a request on either endpoint leaves the shared module
state — the model and tokenizer references, and with them the model's
parameters and mode — unchanged: the handlers only read it. -/
theorem handlers_leave_state_unchanged (stM : MainModule) (stH : HandlerModule)
    (b : RawBody) :
    (handleGenerate stM b).1 = stM ∧ (handleRun stH b).1 = stH :=
  ⟨rfl, rfl⟩

/-- C9: with a stub model whose generation at `max_new_tokens = 0`
returns the encoded input unchanged, `POST /generate` with
`max_tokens = 0` (temperature omitted, so 0.7) answers 200 with the
round-trip `decode (encode P)`: no newly generated tokens. -/
theorem generate_zero_max_tokens (st : MainModule) (P : String)
    (ids : List Nat) (text : String)
    (henc : st.tokenizer.encode P = Except.ok ids)
    (hstub : st.model.generate ids 0 (7/10) = Except.ok [ids])
    (hdec : st.tokenizer.decode ids true = Except.ok text) :
    generateRoute st { prompt := some P, max_tokens := some 0, temperature := none } =
      Http.ok { completion := text } := by
  simp [generateRoute, parseGenRequest, generate, henc, hstub, tensorIndex0, hdec]

/-- C9 witness: the stub model echoes its input when `max_new_tokens = 0`,
and the route answers with the round-trip of `"hi"`. -/
theorem generate_zero_max_tokens_witness :
    generateRoute (initMain stubHub)
      { prompt := some "hi", max_tokens := some 0, temperature := none } =
      Http.ok { completion := "hi" } :=
  generate_zero_max_tokens (initMain stubHub) "hi" [104, 105] "hi" rfl rfl rfl

/-- C10: the completion is the decode of the first sequence
(`outputs[0]`) of the generated batch alone: the result does not depend
on the remaining sequences, which are discarded. -/
theorem generate_uses_first_sequence (M : Model) (T : Tokenizer) (req : GenRequest)
    (ids s : List Nat) (rest : List (List Nat))
    (henc : T.encode req.prompt = Except.ok ids)
    (hgen : M.generate ids req.max_tokens req.temperature = Except.ok (s :: rest)) :
    generate M T req = (T.decode s true).map fun text => { completion := text } := by
  simp [generate, henc, hgen, tensorIndex0]

/-- A stub model returning a batch of three sequences, to witness that
all sequences after the first are discarded. -/
def stubMultiModel : Model where
  training := false
  generate ids _maxNew _temp := Except.ok [ids, [0], [1, 2]]

/-- C10 witness: on a batch of three sequences the completion is the
decode of the first sequence alone. -/
theorem generate_uses_first_sequence_witness :
    generate stubMultiModel stubTokenizer
      { prompt := "ab", max_tokens := 5, temperature := 7/10 } =
      (stubTokenizer.decode [97, 98] true).map fun text => { completion := text } :=
  generate_uses_first_sequence stubMultiModel stubTokenizer
    { prompt := "ab", max_tokens := 5, temperature := 7/10 }
    [97, 98] [97, 98] [[0], [1, 2]] rfl rfl
